import Mathlib

/-!
Verification development for the attendance-tracker client (src/App.js).

The React component state and its event handlers are shallowly embedded:
React `useState` fields and the persistent key-value store become fields of
an explicit `AppState`; each async handler becomes a pure state transformer
taking the outcome of its HTTP call as an explicit oracle argument; the
column-width `useEffect` becomes a state transformer triggered on dataset
replacement. JavaScript scalar values stored in attendance records are
embedded as `JValue`, with `String(x)` conversion made explicit.
-/

set_option autoImplicit false

/-- Scalar cell value of an attendance record, as JavaScript sees it:
a string, a number (integral in this model), a boolean, or `undefined`
for a property that the row does not have. -/
inductive JValue where
  | str (s : String)
  | num (n : Int)
  | bool (b : Bool)
  | undef
  deriving DecidableEq

/-- JavaScript `String(x)` conversion used at `String(row[header])`
(src/App.js line 119). -/
def JValue.jsString : JValue → String
  | JValue.str s => s
  | JValue.num n => toString n
  | JValue.bool b => if b then "true" else "false"
  | JValue.undef => "undefined"

/-- One attendance record: a JavaScript object embedded as an association
list from field name to scalar value, keys in insertion order. -/
abbrev AttendanceRecord : Type := List (String × JValue)

/-- JavaScript property access `row[header]`: the value stored under the
key, or `undefined` when the key is absent. -/
def lookupField (row : AttendanceRecord) (h : String) : JValue :=
  match row.find? (fun p => p.1 == h) with
  | some p => p.2
  | none => JValue.undef

/-- Header-driven candidate width, src/App.js line 115:
`header.length * 10 + 24`. Note it measures the RAW header text. -/
def headerCandidate (h : String) : Nat := h.length * 10 + 24

/-- Value-driven candidate width for one row, src/App.js lines 119-120:
`String(row[header]).length * 8 + 24`. -/
def cellCandidate (row : AttendanceRecord) (h : String) : Nat :=
  (lookupField row h).jsString.length * 8 + 24

/-- Final width of one column, src/App.js lines 113-125: the running
maximum starting from the header candidate over all per-row candidates,
then clamped by `Math.min(Math.max(maxWidth, 100), 200)`. -/
def columnWidth (batch : List AttendanceRecord) (h : String) : Nat :=
  min (max (batch.foldl (fun m row => max m (cellCandidate row h)) (headerCandidate h)) 100) 200

/-- Header list of a batch, src/App.js line 107: `Object.keys(attendance[0])`
for a non-empty batch; empty for an empty batch. -/
def headersOf (batch : List AttendanceRecord) : List String :=
  match batch with
  | [] => []
  | r :: _ => r.map Prod.fst

/-- The ColumnWidthModel computed for a batch, src/App.js lines 111-126:
one entry per header of the first record, each mapped to its clamped width. -/
def computeColumnWidths (batch : List AttendanceRecord) : List (String × Nat) :=
  (headersOf batch).map (fun h => (h, columnWidth batch h))

/-- Display form of a header used when rendering a header cell,
src/App.js lines 302-304: first character upper-cased, then a space
inserted before every ASCII uppercase letter of the remainder
(`header.charAt(0).toUpperCase() + header.slice(1).replace(/([A-Z])/g, " $1")`). -/
def displayForm (h : String) : String :=
  match h.data with
  | [] => ""
  | c :: rest => String.mk (c.toUpper :: rest.flatMap (fun ch => if ch.isUpper then [' ', ch] else [ch]))

/-- Modelled from the spec: the header-driven candidate as section 4.4 of
the spec words it, `headerDisplayLength × K1 + P` with the display form of
the header, for comparison with the candidate the code computes. -/
def specHeaderCandidate (h : String) : Nat := (displayForm h).length * 10 + 24

/-- Derived session status: the code has no status field, the UI branches
on `!jwtToken` (src/App.js line 370), so LoggedOut means the in-memory
token is the empty string and Active means it is non-empty. -/
inductive SessionStatus where
  | loggedOut
  | active
  deriving DecidableEq

/-- Component state plus the persistent store. Fields mirror the `useState`
hooks of src/App.js lines 30-44 and the two AsyncStorage slots. -/
structure AppState where
  systemId : String
  password : String
  jwtToken : String
  attendance : Option (List AttendanceRecord)
  loadingRegister : Bool
  loadingLogin : Bool
  loadingFetch : Bool
  loadingGmailAuth : Bool
  message : String
  error : String
  tableHeaders : List String
  columnWidths : List (String × Nat)
  storedToken : Option String
  storedSystemId : Option String
  deriving DecidableEq

/-- Status derived from token presence. -/
def AppState.status (s : AppState) : SessionStatus :=
  if s.jwtToken = "" then SessionStatus.loggedOut else SessionStatus.active

/-- Initial component state: `useState` initialisers of src/App.js
lines 30-44, with both storage slots empty. -/
def initialState : AppState :=
  { systemId := ""
    password := ""
    jwtToken := ""
    attendance := none
    loadingRegister := false
    loadingLogin := false
    loadingFetch := false
    loadingGmailAuth := false
    message := ""
    error := ""
    tableHeaders := []
    columnWidths := []
    storedToken := none
    storedSystemId := none }

/-- The column-width effect, src/App.js lines 105-130: runs when the
dataset changes; only a present, non-empty batch recomputes headers and
widths, otherwise the previous ones are left in place. -/
def updateColumnLayout (s : AppState) : AppState :=
  match s.attendance with
  | some batch =>
      if 0 < batch.length then
        { s with tableHeaders := headersOf batch, columnWidths := computeColumnWidths batch }
      else s
  | none => s

/-- The `clearMessages` helper, src/App.js lines 132-135. -/
def clearMessages (s : AppState) : AppState :=
  { s with error := "", message := "" }

/-- JavaScript truthy-or on an optional string: `a || b` falls through to
`b` when `a` is absent or the empty string. -/
def jsOr (a : Option String) (b : String) : String :=
  match a with
  | some s => if s = "" then b else s
  | none => b

/-- The error-message chain `err.response?.data?.message ||
err.response?.data || fallback` used in the catch blocks of src/App.js. -/
def jsErrMsg (msgField dataField : Option String) (fallback : String) : String :=
  jsOr msgField (jsOr dataField fallback)

/-- JavaScript `String.prototype.trim`: drop whitespace characters from
both ends (src/App.js lines 139 and 167 call it on the two credential
fields). -/
def jsTrim (s : String) : String :=
  String.mk (((s.data.dropWhile Char.isWhitespace).reverse.dropWhile Char.isWhitespace).reverse)

/-- Outcome of the `POST /register` call as `handleRegister` consumes it:
on 2xx the optional `message` field of the body; on failure the optional
`message` field and the optional body-as-string. -/
inductive RegisterOutcome where
  | success (msgField : Option String)
  | failure (msgField dataField : Option String)

/-- The `handleRegister` handler, src/App.js lines 137-163, as a pure
transformer taking the HTTP outcome as an oracle. The returned Bool is
true exactly when the HTTP request was issued. -/
def handleRegister (s : AppState) (o : RegisterOutcome) : AppState × Bool :=
  let s1 := clearMessages s
  if jsTrim s1.systemId = "" ∨ jsTrim s1.password = "" then
    ({ s1 with error := "Please provide both system ID and password." }, false)
  else
    let s2 := { s1 with loadingRegister := true }
    let s3 :=
      match o with
      | RegisterOutcome.success msgField =>
          { s2 with message := jsOr msgField "Registration successful!",
                    storedSystemId := some s2.systemId }
      | RegisterOutcome.failure msgField dataField =>
          { s2 with error := jsErrMsg msgField dataField "Registration failed. Please try again." }
    ({ s3 with loadingRegister := false }, true)

/-- Outcome of the `POST /login` call as `handleLogin` consumes it: the
`token` field of the body on 2xx, or the error fields on failure. -/
inductive LoginOutcome where
  | success (token : String)
  | failure (msgField dataField : Option String)

/-- The `handleLogin` handler, src/App.js lines 165-194, as a pure
transformer taking the HTTP outcome as an oracle. The returned Bool is
true exactly when the HTTP request was issued. -/
def handleLogin (s : AppState) (o : LoginOutcome) : AppState × Bool :=
  let s1 := clearMessages s
  if jsTrim s1.systemId = "" ∨ jsTrim s1.password = "" then
    ({ s1 with error := "Please provide both system ID and password." }, false)
  else
    let s2 := { s1 with loadingLogin := true }
    let s3 :=
      match o with
      | LoginOutcome.success token =>
          { s2 with jwtToken := token, storedToken := some token,
                    storedSystemId := some s2.systemId, message := "Login successful!" }
      | LoginOutcome.failure msgField dataField =>
          { s2 with error := jsErrMsg msgField dataField "Login failed. Please check your credentials." }
    ({ s3 with loadingLogin := false }, true)

/-- The deep-link handler `handleDeepLink`, src/App.js lines 70-81 (the
initial-URL path, lines 87-97, performs the same update). The event is
embedded by what the code extracts from it: `none` for an event without a
url, `some none` for a url whose query has no `token` parameter, and
`some (some t)` for a url carrying `token=t`. The JavaScript guard
`if (token)` is falsy for the empty string, hence the `t = ""` branch. -/
def handleDeepLink (s : AppState) (urlToken : Option (Option String)) : AppState :=
  match urlToken with
  | none => s
  | some tokenParam =>
      match tokenParam with
      | none => s
      | some t =>
          if t = "" then s
          else { s with storedToken := some t, jwtToken := t, message := "Gmail authentication complete!" }

/-- Outcome of the authenticated `POST /attendance` call: on 2xx the
optional `attendance` field of the body; on failure the HTTP status code
and the optional error-message fields. -/
inductive FetchOutcome where
  | success (att : Option (List AttendanceRecord))
  | failure (code : Nat) (msgField dataField : Option String)

/-- The part of `fetchAttendance` executed before its HTTP call resolves,
src/App.js lines 228-235 on the token-present path: messages cleared, the
fetch flag set, the dataset cleared. -/
def fetchBegin (s : AppState) : AppState :=
  let s1 := clearMessages s
  { s1 with loadingFetch := true, attendance := none }

/-- The continuation of `fetchAttendance` run when its HTTP call resolves,
src/App.js lines 252-274: on success the dataset is replaced by the
response (`response.data.attendance || []`) and a message chosen by its
emptiness; on a 401 failure the session is torn down; on any other failure
only an error message is surfaced. The `finally` clears the fetch flag. -/
def fetchResolve (s : AppState) (o : FetchOutcome) : AppState :=
  let s2 :=
    match o with
    | FetchOutcome.success att =>
        let data := att.getD []
        { s with attendance := some data,
                 message := if 0 < data.length then "Attendance fetched successfully!"
                            else "No attendance records found." }
    | FetchOutcome.failure code msgField dataField =>
        if code = 401 then
          { s with error := "Your session has expired. Please login again.",
                   jwtToken := "", storedToken := none }
        else
          { s with error := jsErrMsg msgField dataField "Error fetching attendance. Please try again." }
  { s2 with loadingFetch := false }

/-- The whole `fetchAttendance` handler, src/App.js lines 227-275, run
without interleaving: clear messages, guard on a missing token (no request
issued), otherwise begin and resolve. The returned Bool is true exactly
when the HTTP request was issued. -/
def fetchAttendance (s : AppState) (o : FetchOutcome) : AppState × Bool :=
  let s1 := clearMessages s
  if s1.jwtToken = "" then
    ({ s1 with error := "Please login (or authenticate with Gmail) first." }, false)
  else
    (fetchResolve (fetchBegin s) o, true)

/-- The `handleLogout` handler, src/App.js lines 277-287, on the path where
the persistent store succeeds: stored and in-memory token removed, dataset
cleared, a logout message set. Nothing else is touched. -/
def handleLogout (s : AppState) : AppState :=
  { s with storedToken := none, jwtToken := "", attendance := none,
           message := "Logged out successfully." }

/-- Maximum of a list of naturals, zero for the empty list. -/
def listMax (l : List Nat) : Nat := l.foldr max 0

/-- Demo record from the spec, section 8. -/
def rowAnn : AttendanceRecord := [("name", JValue.str "Ann"), ("pct", JValue.str "92")]

/-- Demo record from the spec, section 8. -/
def rowAlex : AttendanceRecord := [("name", JValue.str "Alexandria"), ("pct", JValue.str "5")]

/-- Demo batch from the spec, section 8. -/
def demoBatch : List AttendanceRecord := [rowAnn, rowAlex]

/-- The demo batch with its two rows permuted. -/
def demoBatchPerm : List AttendanceRecord := [rowAlex, rowAnn]

/-- One-row batch whose header has an interior uppercase letter and is long
enough that the header candidate escapes the lower clamp. -/
def courseBatch : List AttendanceRecord := [[("courseCode", JValue.str "x")]]

/-- A state holding a live session with a token. -/
def activeState : AppState := { initialState with jwtToken := "tok" }

/-- A state holding a live session, a dataset and a pending error message. -/
def messyState : AppState :=
  { initialState with jwtToken := "tok", attendance := some demoBatch, error := "Network down" }

/-- A state whose identity field is empty but whose secret is filled in. -/
def blankIdState : AppState := { initialState with password := "secret" }

/-- State after the layout effect has processed the demo batch. -/
def staleLayoutState : AppState :=
  updateColumnLayout { initialState with attendance := some demoBatch }

/-- State after the dataset is then replaced by an empty batch and the
layout effect runs again. -/
def emptyBatchState : AppState :=
  updateColumnLayout { staleLayoutState with attendance := some [] }

/-- Folding `max` over a list is invariant under permutation of the list,
for every starting accumulator. -/
theorem foldlMax_perm {l l' : List Nat} (p : l.Perm l') :
    ∀ init : Nat, l.foldl max init = l'.foldl max init := by
  induction p with
  | nil => intro init; rfl
  | cons x _ ih => intro init; exact ih (max init x)
  | swap x y l =>
      intro init
      show List.foldl max (max (max init y) x) l = List.foldl max (max (max init x) y) l
      rw [Nat.max_right_comm]
  | trans _ _ ih1 ih2 => intro init; exact (ih1 init).trans (ih2 init)

/-- Folding `max` from an accumulator equals the maximum of the accumulator
and the maximum of the list. -/
theorem foldlMax_eq_listMax (l : List Nat) :
    ∀ init : Nat, l.foldl max init = max init (listMax l) := by
  induction l with
  | nil => intro init; simp [listMax]
  | cons a tl ih =>
      intro init
      show List.foldl max (max init a) tl = max init (listMax (a :: tl))
      rw [ih (max init a)]
      show max (max init a) (listMax tl) = max init (max a (listMax tl))
      rw [Nat.max_assoc]

/-- Looking up a key in an association list built by tagging each key of a
key list with a function value. -/
theorem lookup_map_key (f : String → Nat) (hs : List String) (k : String) :
    List.lookup k (hs.map (fun x => (x, f x))) = if k ∈ hs then some (f k) else none := by
  induction hs with
  | nil => rfl
  | cons a tl ih =>
      by_cases hka : k = a
      · subst hka; simp [List.lookup]
      · have hb : (k == a) = false := by simpa using hka
        simp [List.lookup, hb, hka, ih]

/-- The width the engine assigns to one column is invariant under
permutation of the rows of the batch. -/
theorem columnWidth_perm (h : String) {batch batch' : List AttendanceRecord}
    (p : batch.Perm batch') : columnWidth batch h = columnWidth batch' h := by
  unfold columnWidth
  have e1 := (List.foldl_map (fun row => cellCandidate row h) max batch (headerCandidate h)).symm
  have e2 := (List.foldl_map (fun row => cellCandidate row h) max batch' (headerCandidate h)).symm
  rw [e1, e2, foldlMax_perm (p.map (fun row => cellCandidate row h)) (headerCandidate h)]

/-- A string all of whose characters are whitespace trims to the empty
string. -/
theorem jsTrim_empty_of_whitespace (s : String) (hws : ∀ c ∈ s.data, c.isWhitespace) :
    jsTrim s = "" := by
  have h1 : s.data.dropWhile Char.isWhitespace = [] := List.dropWhile_eq_nil_iff.mpr hws
  unfold jsTrim
  rw [h1]
  rfl

/-- Claim C1, counterexample: in the concrete run where a fetch is issued
while the token "tok" is present, logout then completes, and afterwards the
successful response carrying one record arrives, the dataset is repopulated
with that record rather than remaining absent. There is no stale-response
guard in src/App.js lines 252-257. -/
theorem claim1_stale_fetch_cex :
    (fetchResolve (handleLogout (fetchBegin activeState))
        (FetchOutcome.success (some [rowAnn]))).attendance = some [rowAnn] ∧
    (fetchResolve (handleLogout (fetchBegin activeState))
        (FetchOutcome.success (some [rowAnn]))).attendance ≠ none := by
  decide

/-- Claim C1, amended: when logout completes while a fetch is in flight and
the successful response then arrives, the status is still LoggedOut, the
in-memory and persisted token stay cleared, but the dataset is repopulated
with the fetched records, for every starting state and every response. -/
theorem claim1_stale_fetch_amended (s : AppState) (att : Option (List AttendanceRecord)) :
    (fetchResolve (handleLogout (fetchBegin s)) (FetchOutcome.success att)).status
      = SessionStatus.loggedOut ∧
    (fetchResolve (handleLogout (fetchBegin s)) (FetchOutcome.success att)).jwtToken = "" ∧
    (fetchResolve (handleLogout (fetchBegin s)) (FetchOutcome.success att)).storedToken = none ∧
    (fetchResolve (handleLogout (fetchBegin s)) (FetchOutcome.success att)).attendance
      = some (att.getD []) := by
  simp [fetchResolve, handleLogout, fetchBegin, clearMessages, AppState.status]

/-- Claim C2, counterexample: the header-driven candidate the code computes
for the header "rollNo" is its raw length times 10 plus 24, that is 84, not
the display-form-driven 94 the claim states, even though the display form
of "rollNo" is indeed "Roll No". -/
theorem claim2_header_candidate_cex :
    headerCandidate "rollNo" = 84 ∧
    displayForm "rollNo" = "Roll No" ∧
    specHeaderCandidate "rollNo" = 94 ∧
    headerCandidate "rollNo" ≠ specHeaderCandidate "rollNo" := by
  decide

/-- Claim C2, amended: the header-driven candidate equals the RAW header
text length times 10 plus 24 (the display form with inserted spaces is used
only when rendering the header cell, not for widths); for "rollNo" the
candidate before clamping is 84, and end to end the batch with the single
header "courseCode" gets width 124, where the display-form rule of the
claim would give 134. -/
theorem claim2_header_candidate_amended :
    headerCandidate "rollNo" = 84 ∧
    "rollNo".length * 10 + 24 = 84 ∧
    List.lookup "courseCode" (computeColumnWidths courseBatch) = some 124 ∧
    headerCandidate "courseCode" = 124 ∧
    min (max (max (specHeaderCandidate "courseCode")
          (cellCandidate [("courseCode", JValue.str "x")] "courseCode")) 100) 200 = 134 := by
  decide

/-- Claim C3, counterexample: after the layout effect has processed the
demo batch, replacing the dataset with the empty list and running the
effect again leaves the previous headers and widths in place instead of
clearing them, because the effect body only runs for a non-empty batch
(src/App.js line 106). -/
theorem claim3_empty_batch_cex :
    emptyBatchState.columnWidths = [("name", 104), ("pct", 100)] ∧
    emptyBatchState.tableHeaders = ["name", "pct"] ∧
    emptyBatchState.columnWidths ≠ [] ∧
    emptyBatchState.tableHeaders ≠ [] := by
  decide

/-- Claim C3, amended: when the record batch is replaced by an empty list,
the layout effect leaves the whole state, in particular the width model and
the header list, exactly as it was; stale widths and headers from an
earlier non-empty batch survive. -/
theorem claim3_empty_batch_amended (s : AppState) (hs : s.attendance = some []) :
    updateColumnLayout s = s := by
  simp [updateColumnLayout, hs]

/-- Claim C3, witness for the amended theorem at a concrete state. -/
theorem claim3_empty_batch_witness :
    updateColumnLayout { initialState with attendance := some [] }
      = { initialState with attendance := some [] } :=
  claim3_empty_batch_amended { initialState with attendance := some [] } rfl

/-- Claim C4: a 401 answer to fetchAttendance issued with a present token
leaves the status LoggedOut, the in-memory and persisted token cleared and
the dataset absent, whatever dataset was held before, and the request was
actually issued and the fetch flag is clear afterwards. -/
theorem claim4_unauthorized_teardown (s : AppState) (m d : Option String)
    (htok : s.jwtToken ≠ "") :
    (fetchAttendance s (FetchOutcome.failure 401 m d)).2 = true ∧
    (fetchAttendance s (FetchOutcome.failure 401 m d)).1.status = SessionStatus.loggedOut ∧
    (fetchAttendance s (FetchOutcome.failure 401 m d)).1.jwtToken = "" ∧
    (fetchAttendance s (FetchOutcome.failure 401 m d)).1.storedToken = none ∧
    (fetchAttendance s (FetchOutcome.failure 401 m d)).1.attendance = none ∧
    (fetchAttendance s (FetchOutcome.failure 401 m d)).1.error
      = "Your session has expired. Please login again." ∧
    (fetchAttendance s (FetchOutcome.failure 401 m d)).1.loadingFetch = false := by
  simp [fetchAttendance, fetchBegin, fetchResolve, clearMessages, AppState.status, htok]

/-- Claim C4, witness at a concrete active state. -/
theorem claim4_unauthorized_teardown_witness :
    (fetchAttendance activeState (FetchOutcome.failure 401 none none)).2 = true ∧
    (fetchAttendance activeState (FetchOutcome.failure 401 none none)).1.status
      = SessionStatus.loggedOut ∧
    (fetchAttendance activeState (FetchOutcome.failure 401 none none)).1.jwtToken = "" ∧
    (fetchAttendance activeState (FetchOutcome.failure 401 none none)).1.storedToken = none ∧
    (fetchAttendance activeState (FetchOutcome.failure 401 none none)).1.attendance = none ∧
    (fetchAttendance activeState (FetchOutcome.failure 401 none none)).1.error
      = "Your session has expired. Please login again." ∧
    (fetchAttendance activeState (FetchOutcome.failure 401 none none)).1.loadingFetch = false :=
  claim4_unauthorized_teardown activeState none none (by decide)

/-- Claim C5, counterexample: on logout from the concrete state holding the
error message "Network down", the error message survives and the success
message is set to the logout text, so the transient messages are not both
cleared as the claim states. -/
theorem claim5_logout_cex :
    (handleLogout messyState).error = "Network down" ∧
    (handleLogout messyState).message = "Logged out successfully." ∧
    ¬((handleLogout messyState).message = "" ∧ (handleLogout messyState).error = "") := by
  decide

/-- Claim C5, amended: logout from every starting state leaves the status
LoggedOut with the in-memory and persisted token cleared, the dataset
cleared and the stored identity retained, but it sets the success message
to a logout text and leaves the error message untouched rather than
clearing the transient messages. -/
theorem claim5_logout_amended (s : AppState) :
    (handleLogout s).status = SessionStatus.loggedOut ∧
    (handleLogout s).jwtToken = "" ∧
    (handleLogout s).storedToken = none ∧
    (handleLogout s).attendance = none ∧
    (handleLogout s).systemId = s.systemId ∧
    (handleLogout s).storedSystemId = s.storedSystemId ∧
    (handleLogout s).message = "Logged out successfully." ∧
    (handleLogout s).error = s.error := by
  simp [handleLogout, AppState.status]

/-- Claim C6, counterexample: a deep-link URL carrying the token parameter
with the empty value is ignored by the handler because the JavaScript guard
`if (token)` is falsy for the empty string, so from the initial state the
status stays LoggedOut instead of becoming Active. -/
theorem claim6_deeplink_cex :
    handleDeepLink initialState (some (some "")) = initialState ∧
    (handleDeepLink initialState (some (some ""))).status = SessionStatus.loggedOut ∧
    SessionStatus.loggedOut ≠ SessionStatus.active := by
  decide

/-- Claim C6, amended: for every status and every NON-EMPTY token t, the
deep-link completion sets status to Active, sets and persists the token t
and surfaces the completion message, and a second completion with another
non-empty token leaves the second token stored; a completion whose token
parameter is the empty string is ignored. -/
theorem claim6_deeplink_amended (s : AppState) (t t2 : String)
    (h : t ≠ "") (h2 : t2 ≠ "") :
    (handleDeepLink s (some (some t))).status = SessionStatus.active ∧
    (handleDeepLink s (some (some t))).jwtToken = t ∧
    (handleDeepLink s (some (some t))).storedToken = some t ∧
    (handleDeepLink s (some (some t))).message = "Gmail authentication complete!" ∧
    (handleDeepLink (handleDeepLink s (some (some t))) (some (some t2))).jwtToken = t2 ∧
    (handleDeepLink (handleDeepLink s (some (some t))) (some (some t2))).storedToken = some t2 ∧
    handleDeepLink s (some (some "")) = s := by
  simp [handleDeepLink, AppState.status, h, h2]

/-- Claim C6, witness for the amended theorem at concrete tokens. -/
theorem claim6_deeplink_witness :
    (handleDeepLink initialState (some (some "alpha"))).status = SessionStatus.active ∧
    (handleDeepLink initialState (some (some "alpha"))).jwtToken = "alpha" ∧
    (handleDeepLink initialState (some (some "alpha"))).storedToken = some "alpha" ∧
    (handleDeepLink initialState (some (some "alpha"))).message
      = "Gmail authentication complete!" ∧
    (handleDeepLink (handleDeepLink initialState (some (some "alpha")))
        (some (some "beta"))).jwtToken = "beta" ∧
    (handleDeepLink (handleDeepLink initialState (some (some "alpha")))
        (some (some "beta"))).storedToken = some "beta" ∧
    handleDeepLink initialState (some (some "")) = initialState :=
  claim6_deeplink_amended initialState "alpha" "beta" (by decide) (by decide)

/-- Claim C7: whenever the identity or the secret is empty or consists of
whitespace only, register and login stop at validation: the resulting state
differs from the starting one only in the message (cleared) and error (set
to the validation text) fields, the loading flags keep their old values,
and the Bool recording that an HTTP request was issued is false. -/
theorem claim7_validation (s : AppState) (o1 : RegisterOutcome) (o2 : LoginOutcome)
    (h : (∀ c ∈ s.systemId.data, c.isWhitespace) ∨ (∀ c ∈ s.password.data, c.isWhitespace)) :
    handleRegister s o1
      = ({ s with message := "", error := "Please provide both system ID and password." }, false) ∧
    handleLogin s o2
      = ({ s with message := "", error := "Please provide both system ID and password." }, false) := by
  rcases h.imp (jsTrim_empty_of_whitespace _) (jsTrim_empty_of_whitespace _) with hv | hv <;>
    constructor <;>
      simp [handleRegister, handleLogin, clearMessages, hv]

/-- Claim C7, witness at a concrete state with an empty identity. -/
theorem claim7_validation_witness :
    handleRegister blankIdState (RegisterOutcome.success none)
      = ({ blankIdState with
           message := "",
           error := "Please provide both system ID and password." }, false) ∧
    handleLogin blankIdState (LoginOutcome.success "tok")
      = ({ blankIdState with
           message := "",
           error := "Please provide both system ID and password." }, false) :=
  claim7_validation blankIdState (RegisterOutcome.success none) (LoginOutcome.success "tok")
    (Or.inl (by decide))

/-- Claim C8: the column layout is the pure function computeColumnWidths of
the record batch, and permuting the rows of a non-empty batch while the key
set of the first record is unchanged yields an identical ColumnWidthModel,
read as the mapping from header to width. -/
theorem claim8_row_permutation (batch batch' : List AttendanceRecord) (_hne : batch ≠ [])
    (hperm : batch.Perm batch')
    (hheads : ∀ k, k ∈ headersOf batch ↔ k ∈ headersOf batch') (k : String) :
    List.lookup k (computeColumnWidths batch) = List.lookup k (computeColumnWidths batch') := by
  unfold computeColumnWidths
  rw [lookup_map_key (columnWidth batch) (headersOf batch) k,
      lookup_map_key (columnWidth batch') (headersOf batch') k]
  by_cases hk : k ∈ headersOf batch
  · rw [if_pos hk, if_pos ((hheads k).mp hk), columnWidth_perm k hperm]
  · rw [if_neg hk, if_neg (fun hk' => hk ((hheads k).mpr hk'))]

/-- Claim C8, witness: swapping the two rows of the demo batch leaves the
width looked up for the header "name" unchanged. -/
theorem claim8_row_permutation_witness :
    List.lookup "name" (computeColumnWidths demoBatch)
      = List.lookup "name" (computeColumnWidths demoBatchPerm) :=
  claim8_row_permutation demoBatch demoBatchPerm (by decide) (by decide)
    (fun _ => Iff.rfl) "name"

/-- Claim C9: every assigned width is the maximum of the header candidate
and all per-row value candidates clamped into the closed interval 100 to
200; on the demo batch the width of the name column is 104, which is the
value candidate of the longer value "Alexandria" (the candidate of "Ann"
being 48 and the header candidate 64), and 104 lies in the interval. -/
theorem claim9_width_formula :
    (∀ (batch : List AttendanceRecord) (h : String),
        columnWidth batch h
          = min (max (max (headerCandidate h)
              (listMax (batch.map (fun row => cellCandidate row h)))) 100) 200) ∧
    List.lookup "name" (computeColumnWidths demoBatch) = some 104 ∧
    cellCandidate rowAlex "name" = 104 ∧
    cellCandidate rowAnn "name" = 48 ∧
    headerCandidate "name" = 64 ∧
    100 ≤ 104 ∧ 104 ≤ 200 := by
  refine ⟨?_, by decide⟩
  intro batch h
  unfold columnWidth
  have e1 := (List.foldl_map (fun row => cellCandidate row h) max batch (headerCandidate h)).symm
  rw [e1, foldlMax_eq_listMax]

/-- Claim C10: calling fetchAttendance with an absent token issues no HTTP
request, never sets the fetch flag, and changes nothing but the messages:
the success message is cleared and the error message asks the user to log
in; token and dataset are untouched. -/
theorem claim10_fetch_without_token (s : AppState) (o : FetchOutcome) (h : s.jwtToken = "") :
    fetchAttendance s o
      = ({ s with
           message := "",
           error := "Please login (or authenticate with Gmail) first." }, false) := by
  simp [fetchAttendance, clearMessages, h]

/-- Claim C10, witness at the initial state. -/
theorem claim10_fetch_without_token_witness :
    fetchAttendance initialState (FetchOutcome.success none)
      = ({ initialState with
           message := "",
           error := "Please login (or authenticate with Gmail) first." }, false) :=
  claim10_fetch_without_token initialState (FetchOutcome.success none) rfl
